import Mathlib

/-!
Verification of the Video-Position-to-Event Synchronization & Cache Engine of the
Apache-Cleats sports editor, shallowly embedded from
`app/sports/triangle_defense_sync.{h,cpp}` and `app/sports/video_timeline_sync.{h,cpp}`.

Conventions of the embedding:
* `double` fields are modelled as `ℚ`, `qint64`/`int` as `ℤ` (the values involved stay far
  from the 64-bit boundaries, so wrap-around is immaterial);
* `QMap` members are modelled as association lists with the map key as first component;
* opaque `QJsonObject` blobs (`player_positions`, `field_context`, `detailed_metrics`,
  `context_data`, marker `metadata`) and `QColor` values are not carried, since no claim
  depends on them;
* Qt signal emissions and SQL mirroring are side channels and are not part of the state.
-/

namespace olive

/-- Formation classification types (triangle_defense_sync.h). -/
inductive FormationType where
  | Larry
  | Linda
  | Rita
  | Ricky
  | Randy
  | Pat
  | Unknown
deriving DecidableEq, Repr

/-- Triangle Defense call types (triangle_defense_sync.h). -/
inductive TriangleCall where
  | StrongSide
  | WeakSide
  | MiddleHash
  | LeftHash
  | RightHash
  | RedZone
  | GoalLine
  | NoCall
deriving DecidableEq, Repr

/-- M.E.L. stage results (triangle_defense_sync.h); `detailed_metrics` (a JSON blob) is
not modelled. -/
structure MELResult where
  making_score : ℚ
  efficiency_score : ℚ
  logical_score : ℚ
  combined_score : ℚ
  stage_status : String
  processing_timestamp : ℤ
deriving DecidableEq, Repr

/-- The `MELResult()` default constructor. -/
def defaultMELResult : MELResult :=
  { making_score := 0, efficiency_score := 0, logical_score := 0, combined_score := 0
    stage_status := "", processing_timestamp := 0 }

/-- Formation analysis data (triangle_defense_sync.h); the JSON blobs
`player_positions` and `field_context` are not modelled. -/
structure FormationData where
  formation_id : String
  type : FormationType
  recommended_call : TriangleCall
  confidence : ℚ
  video_timestamp : ℤ
  detection_timestamp : ℤ
  mel_results : MELResult
  hash_position : String
  field_zone : String
deriving DecidableEq, Repr

/-- The `FormationData()` default constructor. -/
def defaultFormationData : FormationData :=
  { formation_id := "", type := FormationType.Unknown
    recommended_call := TriangleCall.NoCall, confidence := 0
    video_timestamp := 0, detection_timestamp := 0
    mel_results := defaultMELResult, hash_position := "", field_zone := "" }

/-- Real-time coaching alert (triangle_defense_sync.h); the JSON blob `context_data`
is not modelled. -/
structure CoachingAlert where
  alert_id : String
  alert_type : String
  message : String
  target_staff : String
  priority_level : ℤ
  alert_timestamp : ℤ
  video_timestamp : ℤ
  related_formation : FormationData
  acknowledged : Bool
deriving DecidableEq, Repr

/-- The `CoachingAlert()` default constructor. -/
def defaultCoachingAlert : CoachingAlert :=
  { alert_id := "", alert_type := "", message := "", target_staff := ""
    priority_level := 1, alert_timestamp := 0, video_timestamp := 0
    related_formation := defaultFormationData, acknowledged := false }

/-!
## Connection state machine of `TriangleDefenseSync`

The member variables that the reconnect/heartbeat logic reads and writes
(`is_connected_`, `real_time_enabled_`, `reconnection_attempts_`, the activity of
`reconnect_timer_` and `heartbeat_timer_`, `last_heartbeat_`, `heartbeat_received_`)
are collected into one record; a timer being "started" is modelled as its activity
flag being true. Opening the websocket (`websocket_->open(...)`) has no synchronous
effect on these variables, so it does not appear in the transition functions;
a successful open is delivered later as an `OnWebSocketConnected` event.
-/

/-- The connection-related mutable state of `TriangleDefenseSync`. -/
structure SyncConnState where
  is_connected : Bool
  real_time_enabled : Bool
  reconnection_attempts : ℕ
  reconnect_timer_active : Bool
  heartbeat_timer_active : Bool
  last_heartbeat : ℤ
  heartbeat_received : Bool
deriving DecidableEq, Repr

/-- State of a freshly connected client: connected, real-time mode on, no reconnection
attempts recorded, reconnect timer idle, heartbeat timer running
(constructor defaults of triangle_defense_sync.cpp plus `OnWebSocketConnected`). -/
def connectedIdleState : SyncConnState :=
  { is_connected := true, real_time_enabled := true, reconnection_attempts := 0
    reconnect_timer_active := false, heartbeat_timer_active := true
    last_heartbeat := 0, heartbeat_received := false }

/-- `TriangleDefenseSync::AttemptReconnection` (triangle_defense_sync.cpp:1066).
Returns immediately when connected or when real-time mode is off; otherwise increments
the attempt counter, reopens the websocket, and keeps the reconnect timer running while
fewer than 10 attempts have been made, stopping it otherwise. -/
def AttemptReconnection (s : SyncConnState) : SyncConnState :=
  if s.is_connected || !s.real_time_enabled then s
  else
    let s1 := { s with reconnection_attempts := s.reconnection_attempts + 1 }
    if s1.reconnection_attempts < 10 then { s1 with reconnect_timer_active := true }
    else { s1 with reconnect_timer_active := false }

/-- `TriangleDefenseSync::OnWebSocketConnected` (triangle_defense_sync.cpp:489):
marks the client connected, zeroes the attempt counter, stops the reconnect timer and
starts the heartbeat timer. -/
def OnWebSocketConnected (s : SyncConnState) : SyncConnState :=
  { s with is_connected := true, reconnection_attempts := 0
           reconnect_timer_active := false, heartbeat_timer_active := true }

/-- `TriangleDefenseSync::OnWebSocketDisconnected` (triangle_defense_sync.cpp:506):
marks the client disconnected, stops the heartbeat timer and calls
`AttemptReconnection`. -/
def OnWebSocketDisconnected (s : SyncConnState) : SyncConnState :=
  AttemptReconnection { s with is_connected := false, heartbeat_timer_active := false }

/-- A timeout tick of `reconnect_timer_`: the Qt timer invokes its slot
`AttemptReconnection` only while the timer is running. -/
def OnReconnectTimerTick (s : SyncConnState) : SyncConnState :=
  if s.reconnect_timer_active then AttemptReconnection s else s

/-- `TriangleDefenseSync::SendHeartbeat` (triangle_defense_sync.cpp:1051): when the
websocket is connected, sends the heartbeat message and clears `heartbeat_received_`. -/
def SendHeartbeat (s : SyncConnState) : SyncConnState :=
  if s.is_connected then { s with heartbeat_received := false } else s

/-- `TriangleDefenseSync::OnHeartbeatTimer` (triangle_defense_sync.cpp:594): sends a
heartbeat, then, when more than 30000 ms have passed since `last_heartbeat_`, calls
`AttemptReconnection`. `current_time` is the wall clock at the tick. -/
def OnHeartbeatTimer (current_time : ℤ) (s : SyncConnState) : SyncConnState :=
  let s1 := SendHeartbeat s
  if current_time - s1.last_heartbeat > 30000 then AttemptReconnection s1 else s1

/-- The state reached after a disconnect followed by `n` reconnect-timer ticks with the
connection never coming back up. -/
def reconnChain (n : ℕ) : SyncConnState :=
  OnReconnectTimerTick^[n] (OnWebSocketDisconnected connectedIdleState)

/-- A tick of the reconnect timer is a no-op once the timer has been stopped. -/
theorem onReconnectTimerTick_of_inactive (s : SyncConnState)
    (h : s.reconnect_timer_active = false) : OnReconnectTimerTick s = s := by
  simp [OnReconnectTimerTick, h]

/-- After the disconnect and nine further timer ticks, the attempt counter has reached
10 and the reconnect timer has been stopped. -/
theorem reconnChain_nine :
    reconnChain 9 =
      { is_connected := false, real_time_enabled := true, reconnection_attempts := 10
        reconnect_timer_active := false, heartbeat_timer_active := false
        last_heartbeat := 0, heartbeat_received := false } := by
  decide

/-- The chain is frozen from the ninth tick on. -/
theorem reconnChain_add_nine (k : ℕ) : reconnChain (9 + k) = reconnChain 9 := by
  induction k with
  | zero => rfl
  | succ k ih =>
    have : reconnChain (9 + (k + 1)) = OnReconnectTimerTick (reconnChain (9 + k)) := by
      simp [reconnChain, ← Function.iterate_succ_apply' OnReconnectTimerTick]
      rfl
    rw [this, ih, reconnChain_nine]
    exact onReconnectTimerTick_of_inactive _ rfl

/-- Closed form of the failing-reconnect chain. -/
theorem reconnChain_closed (n : ℕ) :
    (reconnChain n).reconnection_attempts = min (n + 1) 10 ∧
    (reconnChain n).reconnect_timer_active = decide (n + 1 < 10) ∧
    (reconnChain n).is_connected = false := by
  by_cases h : n < 9
  · interval_cases n <;> refine ⟨by decide, by decide, by decide⟩
  · obtain ⟨k, rfl⟩ : ∃ k, n = 9 + k := ⟨n - 9, by omega⟩
    rw [reconnChain_add_nine, reconnChain_nine]
    refine ⟨by simp, by simp, rfl⟩

/-- C4: after a disconnect with the connection persistently failing, the attempt counter
after `n` automatic reconnect-timer ticks is `min (n+1) 10` — it stops at exactly 10
attempts — and the reconnect timer is stopped from the tenth attempt on, so no further
automatic retries occur; a successful `OnWebSocketConnected` resets the counter to 0 and
cancels the reconnect timer. -/
theorem reconnection_bounded_by_ten (n : ℕ) :
    (reconnChain n).reconnection_attempts = min (n + 1) 10 ∧
    (reconnChain n).reconnect_timer_active = decide (n + 1 < 10) ∧
    (9 ≤ n → OnReconnectTimerTick (reconnChain n) = reconnChain n) ∧
    (OnWebSocketConnected (reconnChain n)).reconnection_attempts = 0 ∧
    (OnWebSocketConnected (reconnChain n)).reconnect_timer_active = false := by
  obtain ⟨h1, h2, h3⟩ := reconnChain_closed n
  refine ⟨h1, h2, ?_, by simp [OnWebSocketConnected], by simp [OnWebSocketConnected]⟩
  intro hn
  apply onReconnectTimerTick_of_inactive
  rw [h2]
  simp
  omega

/-- C4 witness: the concrete run of eleven consecutive failures (the disconnect plus ten
timer ticks) records exactly 10 attempts and a stopped timer, and a later successful
connect clears both. -/
theorem reconnection_bounded_by_ten_witness :
    (reconnChain 10).reconnection_attempts = min (10 + 1) 10 ∧
    (reconnChain 10).reconnect_timer_active = decide (10 + 1 < 10) ∧
    (9 ≤ 10 → OnReconnectTimerTick (reconnChain 10) = reconnChain 10) ∧
    (OnWebSocketConnected (reconnChain 10)).reconnection_attempts = 0 ∧
    (OnWebSocketConnected (reconnChain 10)).reconnect_timer_active = false :=
  reconnection_bounded_by_ten 10

/-- C5: evaluating `OnHeartbeatTimer` at the failing input — a connected client whose
last heartbeat acknowledgment is 30001 ms old. The guard `current_time - last_heartbeat_
> 30000` fires, but `AttemptReconnection` returns immediately because `is_connected_` is
still true: the client stays connected, no reconnect attempt is recorded, and the only
state change is `SendHeartbeat` clearing `heartbeat_received_`. The spec instead demands
a transition to the disconnected state and the start of reconnection. -/
theorem heartbeat_timeout_is_noop_while_connected :
    OnHeartbeatTimer 30001 connectedIdleState =
      { connectedIdleState with heartbeat_received := false } ∧
    (OnHeartbeatTimer 30001 connectedIdleState).is_connected = true ∧
    (OnHeartbeatTimer 30001 connectedIdleState).reconnection_attempts = 0 ∧
    30001 - connectedIdleState.last_heartbeat > 30000 := by
  refine ⟨by decide, by decide, by decide, by decide⟩

/-!
## The formation cache and `GetFormationAt`

`formation_cache_` is a `QMap<qint64, FormationData>` keyed by video timestamp; it is
modelled as an association list. The linear scan of `GetFormationAt`
(triangle_defense_sync.cpp:173) keeps, per side, the best candidate seen so far as the
pair (distance to the query, cached formation); the `LLONG_MAX` sentinel of the C++
minima is modelled by `Option.none`, and `qAbs(timestamp_diff)` for the
`timestamp_diff <= 0` branch is written as `t - key`. The two accumulators are updated
by disjoint branches of the loop body, so the single C++ loop is split into two folds.
-/

/-- The formation cache: video timestamp to formation data. -/
abbrev FormationCache := List (ℤ × FormationData)

/-- Best candidate of one side of the scan: distance to the query plus the formation. -/
abbrev ScanCand := Option (ℤ × FormationData)

/-- One step of the `closest_before` accumulator of the scan in `GetFormationAt`. -/
def stepBefore (t : ℤ) (acc : ScanCand) (kv : ℤ × FormationData) : ScanCand :=
  if kv.1 - t ≤ 0 then
    match acc with
    | none => some (t - kv.1, kv.2)
    | some p => if t - kv.1 < p.1 then some (t - kv.1, kv.2) else some p
  else acc

/-- One step of the `closest_after` accumulator of the scan in `GetFormationAt`. -/
def stepAfter (t : ℤ) (acc : ScanCand) (kv : ℤ × FormationData) : ScanCand :=
  if kv.1 - t ≤ 0 then acc
  else
    match acc with
    | none => some (kv.1 - t, kv.2)
    | some p => if kv.1 - t < p.1 then some (kv.1 - t, kv.2) else some p

/-- The `closest_before`/`min_before_diff` result of the scan. -/
def scanBefore (cache : FormationCache) (t : ℤ) : ScanCand :=
  cache.foldl (stepBefore t) none

/-- The `closest_after`/`min_after_diff` result of the scan. -/
def scanAfter (cache : FormationCache) (t : ℤ) : ScanCand :=
  cache.foldl (stepAfter t) none

namespace TriangleDefenseUtils

/-- `TriangleDefenseUtils::InterpolateFormation` (triangle_defense_sync.cpp:1205).
The local `ratio` is called `blend` here because of naming constraints of this
development; it is the same quantity. -/
def InterpolateFormation (before after : FormationData) (target_timestamp : ℤ) :
    FormationData :=
  let blend : ℚ := ((target_timestamp - before.video_timestamp : ℤ) : ℚ) /
                   ((after.video_timestamp - before.video_timestamp : ℤ) : ℚ)
  let interpolated : FormationData :=
    { before with
      video_timestamp := target_timestamp
      confidence := before.confidence + (after.confidence - before.confidence) * blend
      mel_results := { before.mel_results with
        making_score := before.mel_results.making_score +
          (after.mel_results.making_score - before.mel_results.making_score) * blend
        efficiency_score := before.mel_results.efficiency_score +
          (after.mel_results.efficiency_score - before.mel_results.efficiency_score) * blend
        logical_score := before.mel_results.logical_score +
          (after.mel_results.logical_score - before.mel_results.logical_score) * blend
        combined_score := before.mel_results.combined_score +
          (after.mel_results.combined_score - before.mel_results.combined_score) * blend } }
  if blend > 1/2 then
    { interpolated with
      type := after.type
      recommended_call := after.recommended_call
      hash_position := after.hash_position
      field_zone := after.field_zone }
  else interpolated

end TriangleDefenseUtils

/-- The return cascade of `GetFormationAt` after the scan
(triangle_defense_sync.cpp:187): interpolate when both sides were found within 5000 ms,
else the before side within 10000 ms, else the after side within 10000 ms, else the
empty `FormationData()`. The Bool records hit (`true`) versus miss (`false`). -/
def resolveScan (t : ℤ) (b a : ScanCand) : FormationData × Bool :=
  match b, a with
  | some pb, some pa =>
    if pb.1 < 5000 ∧ pa.1 < 5000 then
      (TriangleDefenseUtils.InterpolateFormation pb.2 pa.2 t, true)
    else if pb.1 < 10000 then (pb.2, true)
    else if pa.1 < 10000 then (pa.2, true)
    else (defaultFormationData, false)
  | some pb, none =>
    if pb.1 < 10000 then (pb.2, true) else (defaultFormationData, false)
  | none, some pa =>
    if pa.1 < 10000 then (pa.2, true) else (defaultFormationData, false)
  | none, none => (defaultFormationData, false)

/-- `TriangleDefenseSync::GetFormationAt` (triangle_defense_sync.cpp:157), returning
the looked-up formation together with the hit/miss accounting: the second component is
`true` at the return sites that do `stats_.cache_hits++` and `false` at the one that
does `stats_.cache_misses++`. -/
def GetFormationAtCounted (cache : FormationCache) (t : ℤ) : FormationData × Bool :=
  match cache.find? (fun kv => kv.1 == t) with
  | some kv => (kv.2, true)
  | none => resolveScan t (scanBefore cache t) (scanAfter cache t)

/-- The returned formation of `GetFormationAt`. -/
def GetFormationAt (cache : FormationCache) (t : ℤ) : FormationData :=
  (GetFormationAtCounted cache t).1

/-!
### Correctness of the linear scan
-/

/-- Folding `stepBefore` from a present candidate stays present and never worsens the
distance. -/
theorem foldl_stepBefore_some (t : ℤ) :
    ∀ (l : FormationCache) (p : ℤ × FormationData),
      ∃ q, l.foldl (stepBefore t) (some p) = some q ∧ q.1 ≤ p.1 := by
  intro l
  induction l with
  | nil => exact fun p => ⟨p, rfl, le_refl _⟩
  | cons kv tl ih =>
    intro p
    by_cases hk : kv.1 - t ≤ 0
    · by_cases hlt : t - kv.1 < p.1
      · have hstep : stepBefore t (some p) kv = some (t - kv.1, kv.2) := by
          simp [stepBefore, hk, hlt]
        obtain ⟨q, hq, hle⟩ := ih (t - kv.1, kv.2)
        exact ⟨q, by simpa [hstep] using hq, by simp at hle; omega⟩
      · have hstep : stepBefore t (some p) kv = some p := by
          simp [stepBefore, hk, hlt]
        obtain ⟨q, hq, hle⟩ := ih p
        exact ⟨q, by simpa [hstep] using hq, hle⟩
    · have hstep : stepBefore t (some p) kv = some p := by
        simp [stepBefore, hk]
      obtain ⟨q, hq, hle⟩ := ih p
      exact ⟨q, by simpa [hstep] using hq, hle⟩

/-- When the cache holds an entry at or before the query, the before-scan returns a
candidate at most that entry's distance away. -/
theorem foldl_stepBefore_mem_bound (t : ℤ) :
    ∀ (l : FormationCache) (acc : ScanCand) (kv : ℤ × FormationData),
      kv ∈ l → kv.1 ≤ t →
      ∃ q, l.foldl (stepBefore t) acc = some q ∧ q.1 ≤ t - kv.1 := by
  intro l
  induction l with
  | nil => intro acc kv h; exact absurd h (List.not_mem_nil kv)
  | cons hd tl ih =>
    intro acc kv hmem hle
    rcases List.mem_cons.mp hmem with heq | htl
    · subst heq
      have hk : kv.1 - t ≤ 0 := by omega
      have hacc : ∃ p1, stepBefore t acc kv = some p1 ∧ p1.1 ≤ t - kv.1 := by
        cases acc with
        | none => exact ⟨(t - kv.1, kv.2), by simp [stepBefore, hk], le_refl _⟩
        | some p =>
          by_cases hlt : t - kv.1 < p.1
          · exact ⟨(t - kv.1, kv.2), by simp [stepBefore, hk, hlt], le_refl _⟩
          · exact ⟨p, by simp [stepBefore, hk, hlt], by omega⟩
      obtain ⟨p1, hp1, hp1le⟩ := hacc
      obtain ⟨q, hq, hqle⟩ := foldl_stepBefore_some t tl p1
      exact ⟨q, by simpa [hp1] using hq, le_trans hqle hp1le⟩
    · exact ih (stepBefore t acc hd) kv htl hle

/-- Provenance of the before-scan: its candidate either is the initial accumulator or
comes from a cache entry at distance exactly `q.1` at or before the query. -/
theorem foldl_stepBefore_provenance (t : ℤ) :
    ∀ (l : FormationCache) (acc : ScanCand) (q : ℤ × FormationData),
      l.foldl (stepBefore t) acc = some q →
      acc = some q ∨ ((t - q.1, q.2) ∈ l ∧ 0 ≤ q.1) := by
  intro l
  induction l with
  | nil => intro acc q h; exact Or.inl h
  | cons hd tl ih =>
    intro acc q hfold
    rcases ih (stepBefore t acc hd) q hfold with hacc | ⟨hmem, hpos⟩
    · by_cases hk : hd.1 - t ≤ 0
      · cases acc with
        | none =>
          have hstep : stepBefore t none hd = some (t - hd.1, hd.2) := by
            simp [stepBefore, hk]
          rw [hstep] at hacc
          obtain rfl := Option.some.inj hacc
          refine Or.inr ⟨?_, by simp; omega⟩
          have h1 : t - (t - hd.1) = hd.1 := by omega
          simp [h1]
        | some p =>
          by_cases hlt : t - hd.1 < p.1
          · have hstep : stepBefore t (some p) hd = some (t - hd.1, hd.2) := by
              simp [stepBefore, hk, hlt]
            rw [hstep] at hacc
            obtain rfl := Option.some.inj hacc
            refine Or.inr ⟨?_, by simp; omega⟩
            have h1 : t - (t - hd.1) = hd.1 := by omega
            simp [h1]
          · have hstep : stepBefore t (some p) hd = some p := by
              simp [stepBefore, hk, hlt]
            rw [hstep] at hacc
            exact Or.inl hacc
      · have hstep : stepBefore t acc hd = acc := by simp [stepBefore, hk]
        rw [hstep] at hacc
        exact Or.inl hacc
    · exact Or.inr ⟨List.mem_cons_of_mem hd hmem, hpos⟩

/-- Folding `stepAfter` from a present candidate stays present and never worsens the
distance. -/
theorem foldl_stepAfter_some (t : ℤ) :
    ∀ (l : FormationCache) (p : ℤ × FormationData),
      ∃ q, l.foldl (stepAfter t) (some p) = some q ∧ q.1 ≤ p.1 := by
  intro l
  induction l with
  | nil => exact fun p => ⟨p, rfl, le_refl _⟩
  | cons kv tl ih =>
    intro p
    by_cases hk : kv.1 - t ≤ 0
    · have hstep : stepAfter t (some p) kv = some p := by
        simp [stepAfter, hk]
      obtain ⟨q, hq, hle⟩ := ih p
      exact ⟨q, by simpa [hstep] using hq, hle⟩
    · by_cases hlt : kv.1 - t < p.1
      · have hstep : stepAfter t (some p) kv = some (kv.1 - t, kv.2) := by
          simp [stepAfter, hk, hlt]
        obtain ⟨q, hq, hle⟩ := ih (kv.1 - t, kv.2)
        exact ⟨q, by simpa [hstep] using hq, by simp at hle; omega⟩
      · have hstep : stepAfter t (some p) kv = some p := by
          simp [stepAfter, hk, hlt]
        obtain ⟨q, hq, hle⟩ := ih p
        exact ⟨q, by simpa [hstep] using hq, hle⟩

/-- When the cache holds an entry strictly after the query, the after-scan returns a
candidate at most that entry's distance away. -/
theorem foldl_stepAfter_mem_bound (t : ℤ) :
    ∀ (l : FormationCache) (acc : ScanCand) (kv : ℤ × FormationData),
      kv ∈ l → t < kv.1 →
      ∃ q, l.foldl (stepAfter t) acc = some q ∧ q.1 ≤ kv.1 - t := by
  intro l
  induction l with
  | nil => intro acc kv h; exact absurd h (List.not_mem_nil kv)
  | cons hd tl ih =>
    intro acc kv hmem hgt
    rcases List.mem_cons.mp hmem with heq | htl
    · subst heq
      have hk : ¬ kv.1 - t ≤ 0 := by omega
      have hacc : ∃ p1, stepAfter t acc kv = some p1 ∧ p1.1 ≤ kv.1 - t := by
        cases acc with
        | none => exact ⟨(kv.1 - t, kv.2), by simp [stepAfter, hk], le_refl _⟩
        | some p =>
          by_cases hlt : kv.1 - t < p.1
          · exact ⟨(kv.1 - t, kv.2), by simp [stepAfter, hk, hlt], le_refl _⟩
          · exact ⟨p, by simp [stepAfter, hk, hlt], by omega⟩
      obtain ⟨p1, hp1, hp1le⟩ := hacc
      obtain ⟨q, hq, hqle⟩ := foldl_stepAfter_some t tl p1
      exact ⟨q, by simpa [hp1] using hq, le_trans hqle hp1le⟩
    · exact ih (stepAfter t acc hd) kv htl hgt

/-- Provenance of the after-scan: its candidate either is the initial accumulator or
comes from a cache entry at distance exactly `q.1` strictly after the query. -/
theorem foldl_stepAfter_provenance (t : ℤ) :
    ∀ (l : FormationCache) (acc : ScanCand) (q : ℤ × FormationData),
      l.foldl (stepAfter t) acc = some q →
      acc = some q ∨ ((t + q.1, q.2) ∈ l ∧ 0 < q.1) := by
  intro l
  induction l with
  | nil => intro acc q h; exact Or.inl h
  | cons hd tl ih =>
    intro acc q hfold
    rcases ih (stepAfter t acc hd) q hfold with hacc | ⟨hmem, hpos⟩
    · by_cases hk : hd.1 - t ≤ 0
      · have hstep : stepAfter t acc hd = acc := by simp [stepAfter, hk]
        rw [hstep] at hacc
        exact Or.inl hacc
      · cases acc with
        | none =>
          have hstep : stepAfter t none hd = some (hd.1 - t, hd.2) := by
            simp [stepAfter, hk]
          rw [hstep] at hacc
          obtain rfl := Option.some.inj hacc
          refine Or.inr ⟨?_, by simp; omega⟩
          have h1 : t + (hd.1 - t) = hd.1 := by omega
          simp [h1]
        | some p =>
          by_cases hlt : hd.1 - t < p.1
          · have hstep : stepAfter t (some p) hd = some (hd.1 - t, hd.2) := by
              simp [stepAfter, hk, hlt]
            rw [hstep] at hacc
            obtain rfl := Option.some.inj hacc
            refine Or.inr ⟨?_, by simp; omega⟩
            have h1 : t + (hd.1 - t) = hd.1 := by omega
            simp [h1]
          · have hstep : stepAfter t (some p) hd = some p := by
              simp [stepAfter, hk, hlt]
            rw [hstep] at hacc
            exact Or.inl hacc
    · exact Or.inr ⟨List.mem_cons_of_mem hd hmem, hpos⟩

/-- In a cache whose keys are distinct (as `QMap` guarantees), the value at a key is
unique. -/
theorem value_eq_of_nodup_keys :
    ∀ (l : FormationCache) (k : ℤ) (v1 v2 : FormationData),
      (l.map Prod.fst).Nodup → (k, v1) ∈ l → (k, v2) ∈ l → v1 = v2 := by
  intro l
  induction l with
  | nil => intro k v1 v2 _ h; exact absurd h (List.not_mem_nil _)
  | cons hd tl ih =>
    intro k v1 v2 hnd h1 h2
    rw [List.map_cons, List.nodup_cons] at hnd
    rcases List.mem_cons.mp h1 with e1 | m1 <;> rcases List.mem_cons.mp h2 with e2 | m2
    · rw [← e1] at e2
      exact (Prod.mk.injEq .. ▸ e2).2.symm
    · exfalso
      apply hnd.1
      rw [← e1]
      exact List.mem_map.mpr ⟨(k, v2), m2, rfl⟩
    · exfalso
      apply hnd.1
      rw [← e2]
      exact List.mem_map.mpr ⟨(k, v1), m1, rfl⟩
    · exact ih k v1 v2 hnd.2 m1 m2

/-- The exact-match probe `formation_cache_.contains(video_timestamp)` fails when no
cached key equals the query. -/
theorem find?_key_eq_none {cache : FormationCache} {t : ℤ}
    (hne : ∀ kv ∈ cache, kv.1 ≠ t) :
    cache.find? (fun kv => kv.1 == t) = none := by
  rw [List.find?_eq_none]
  intro x hx
  simpa using hne x hx

/-- When both sides of the query have a cache entry within the 5000 ms interpolation
gap, `GetFormationAt` returns the interpolation of two entries within that gap (and
counts a hit). -/
theorem lookup_interpolates_of_both_within_gap
    (cache : FormationCache) (t : ℤ)
    (hne : ∀ kv ∈ cache, kv.1 ≠ t)
    (hb : ∃ kv ∈ cache, kv.1 < t ∧ t - kv.1 < 5000)
    (ha : ∃ kv ∈ cache, t < kv.1 ∧ kv.1 - t < 5000) :
    ∃ kb fb ka fa, (kb, fb) ∈ cache ∧ (ka, fa) ∈ cache ∧
      kb < t ∧ t - kb < 5000 ∧ t < ka ∧ ka - t < 5000 ∧
      GetFormationAtCounted cache t =
        (TriangleDefenseUtils.InterpolateFormation fb fa t, true) := by
  obtain ⟨kv0, hkv0, hk0lt, hk0gap⟩ := hb
  obtain ⟨kv1, hkv1, hk1gt, hk1gap⟩ := ha
  obtain ⟨q, hq, hqle⟩ := foldl_stepBefore_mem_bound t cache none kv0 hkv0 hk0lt.le
  obtain ⟨r, hr, hrle⟩ := foldl_stepAfter_mem_bound t cache none kv1 hkv1 hk1gt
  rcases foldl_stepBefore_provenance t cache none q hq with h | ⟨hqmem, hqpos⟩
  · exact absurd h (by simp)
  rcases foldl_stepAfter_provenance t cache none r hr with h | ⟨hrmem, hrpos⟩
  · exact absurd h (by simp)
  have hq0 : 0 < q.1 := by
    rcases lt_or_eq_of_le hqpos with h | h
    · exact h
    · exact absurd (by omega : t - q.1 = t) (hne _ hqmem)
  have hq5 : q.1 < 5000 := by omega
  have hr5 : r.1 < 5000 := by omega
  refine ⟨t - q.1, q.2, t + r.1, r.2, hqmem, hrmem, by omega, by omega, by omega,
    by omega, ?_⟩
  simp only [GetFormationAtCounted, find?_key_eq_none hne]
  have hsb : scanBefore cache t = some q := hq
  have hsa : scanAfter cache t = some r := hr
  rw [hsb, hsa]
  simp only [resolveScan]
  rw [if_pos ⟨hq5, hr5⟩]

/-- Same as `lookup_interpolates_of_both_within_gap`, with the two interpolation inputs
identified as the closest earlier and the closest later entry: in a cache with distinct
keys, when the closest earlier and closest later entries are both within the 5000 ms
gap, the lookup returns exactly their interpolation. -/
theorem lookup_interpolates_closest
    (cache : FormationCache) (t kb ka : ℤ) (fb fa : FormationData)
    (hnd : (cache.map Prod.fst).Nodup)
    (hne : ∀ kv ∈ cache, kv.1 ≠ t)
    (hbmem : (kb, fb) ∈ cache) (hblt : kb < t) (hbgap : t - kb < 5000)
    (hbmin : ∀ kv ∈ cache, kv.1 ≤ t → t - kb ≤ t - kv.1)
    (hamem : (ka, fa) ∈ cache) (hagt : t < ka) (hagap : ka - t < 5000)
    (hamin : ∀ kv ∈ cache, t < kv.1 → ka - t ≤ kv.1 - t) :
    GetFormationAtCounted cache t =
      (TriangleDefenseUtils.InterpolateFormation fb fa t, true) := by
  obtain ⟨q, hq, hqle⟩ := foldl_stepBefore_mem_bound t cache none (kb, fb) hbmem hblt.le
  obtain ⟨r, hr, hrle⟩ := foldl_stepAfter_mem_bound t cache none (ka, fa) hamem hagt
  rcases foldl_stepBefore_provenance t cache none q hq with h | ⟨hqmem, hqpos⟩
  · exact absurd h (by simp)
  rcases foldl_stepAfter_provenance t cache none r hr with h | ⟨hrmem, hrpos⟩
  · exact absurd h (by simp)
  have hqmin : t - kb ≤ q.1 := by
    have := hbmin (t - q.1, q.2) hqmem (by simp; omega)
    simpa using this
  have hqeq : t - q.1 = kb := by simp at hqle; omega
  have hfb : q.2 = fb := value_eq_of_nodup_keys cache kb q.2 fb hnd (hqeq ▸ hqmem) hbmem
  have hrmin : ka - t ≤ r.1 := by
    have := hamin (t + r.1, r.2) hrmem (by simp; omega)
    simpa using this
  have hreq : t + r.1 = ka := by simp at hrle; omega
  have hfa : r.2 = fa := value_eq_of_nodup_keys cache ka r.2 fa hnd (hreq ▸ hrmem) hamem
  have hq5 : q.1 < 5000 := by omega
  have hr5 : r.1 < 5000 := by omega
  simp only [GetFormationAtCounted, find?_key_eq_none hne]
  have hsb : scanBefore cache t = some q := hq
  have hsa : scanAfter cache t = some r := hr
  rw [hsb, hsa]
  simp only [resolveScan]
  rw [if_pos ⟨hq5, hr5⟩, hfb, hfa]

/-- When interpolation is ruled out (one side of the query has every entry at least
5000 ms away), the lookup falls back to the closest entry at or before the query
whenever that entry is within 10000 ms — regardless of whether a later entry is
closer. -/
theorem lookup_prefers_before_side
    (cache : FormationCache) (t kb : ℤ) (fb : FormationData)
    (hnd : (cache.map Prod.fst).Nodup)
    (hne : ∀ kv ∈ cache, kv.1 ≠ t)
    (hnointerp : (∀ kv ∈ cache, kv.1 ≤ t → 5000 ≤ t - kv.1) ∨
                 (∀ kv ∈ cache, t < kv.1 → 5000 ≤ kv.1 - t))
    (hbmem : (kb, fb) ∈ cache) (hble : kb ≤ t) (hbgap : t - kb < 10000)
    (hbmin : ∀ kv ∈ cache, kv.1 ≤ t → t - kb ≤ t - kv.1) :
    GetFormationAtCounted cache t = (fb, true) := by
  obtain ⟨q, hq, hqle⟩ := foldl_stepBefore_mem_bound t cache none (kb, fb) hbmem hble
  rcases foldl_stepBefore_provenance t cache none q hq with h | ⟨hqmem, hqpos⟩
  · exact absurd h (by simp)
  have hqmin : t - kb ≤ q.1 := by
    have := hbmin (t - q.1, q.2) hqmem (by simp; omega)
    simpa using this
  have hqeq : t - q.1 = kb := by simp at hqle; omega
  have hfb : q.2 = fb := value_eq_of_nodup_keys cache kb q.2 fb hnd (hqeq ▸ hqmem) hbmem
  have hq10 : q.1 < 10000 := by omega
  simp only [GetFormationAtCounted, find?_key_eq_none hne]
  have hsb : scanBefore cache t = some q := hq
  rw [hsb]
  cases hra : scanAfter cache t with
  | none =>
    simp only [resolveScan]
    rw [if_pos hq10, hfb]
  | some r =>
    rcases foldl_stepAfter_provenance t cache none r hra with h | ⟨hrmem, hrpos⟩
    · exact absurd h (by simp)
    have hno : ¬ (q.1 < 5000 ∧ r.1 < 5000) := by
      rcases hnointerp with hL | hR
      · have := hL (t - q.1, q.2) hqmem (by simp; omega)
        simp at this
        omega
      · have := hR (t + r.1, r.2) hrmem (by simp; omega)
        simp at this
        omega
    simp only [resolveScan]
    rw [if_neg hno, if_pos hq10, hfb]

/-- When every entry at or before the query is at least 10000 ms away (so neither the
interpolation branch nor the before-side fallback can fire), the lookup falls back to
the closest entry strictly after the query whenever that entry is within 10000 ms
(triangle_defense_sync.cpp:200). -/
theorem lookup_falls_back_to_after_side
    (cache : FormationCache) (t ka : ℤ) (fa : FormationData)
    (hnd : (cache.map Prod.fst).Nodup)
    (hne : ∀ kv ∈ cache, kv.1 ≠ t)
    (hfarB : ∀ kv ∈ cache, kv.1 ≤ t → 10000 ≤ t - kv.1)
    (hamem : (ka, fa) ∈ cache) (hagt : t < ka) (hagap : ka - t < 10000)
    (hamin : ∀ kv ∈ cache, t < kv.1 → ka - t ≤ kv.1 - t) :
    GetFormationAtCounted cache t = (fa, true) := by
  obtain ⟨r, hr, hrle⟩ := foldl_stepAfter_mem_bound t cache none (ka, fa) hamem hagt
  rcases foldl_stepAfter_provenance t cache none r hr with h | ⟨hrmem, hrpos⟩
  · exact absurd h (by simp)
  have hrmin : ka - t ≤ r.1 := by
    have := hamin (t + r.1, r.2) hrmem (by simp; omega)
    simpa using this
  have hreq : t + r.1 = ka := by simp at hrle; omega
  have hfa : r.2 = fa := value_eq_of_nodup_keys cache ka r.2 fa hnd (hreq ▸ hrmem) hamem
  have hr10 : r.1 < 10000 := by omega
  simp only [GetFormationAtCounted, find?_key_eq_none hne]
  have hsa : scanAfter cache t = some r := hr
  rw [hsa]
  cases hrb : scanBefore cache t with
  | none =>
    simp only [resolveScan]
    rw [if_pos hr10, hfa]
  | some q =>
    rcases foldl_stepBefore_provenance t cache none q hrb with h | ⟨hqmem, hqpos⟩
    · exact absurd h (by simp)
    have hq10 : 10000 ≤ q.1 := by
      have := hfarB (t - q.1, q.2) hqmem (by simp; omega)
      simpa using this
    simp only [resolveScan]
    rw [if_neg (by omega), if_neg (by omega), if_pos hr10, hfa]

/-- When every cache entry is at least 10000 ms away from the query on its own side,
the lookup returns the empty `FormationData()` and counts a cache miss. -/
theorem lookup_misses_when_all_far
    (cache : FormationCache) (t : ℤ)
    (hfarB : ∀ kv ∈ cache, kv.1 ≤ t → 10000 ≤ t - kv.1)
    (hfarA : ∀ kv ∈ cache, t < kv.1 → 10000 ≤ kv.1 - t) :
    GetFormationAtCounted cache t = (defaultFormationData, false) := by
  have hne : ∀ kv ∈ cache, kv.1 ≠ t := by
    intro kv hkv heq
    have := hfarB kv hkv (le_of_eq heq)
    omega
  simp only [GetFormationAtCounted, find?_key_eq_none hne]
  cases hrb : scanBefore cache t with
  | none =>
    cases hra : scanAfter cache t with
    | none => simp [resolveScan]
    | some r =>
      rcases foldl_stepAfter_provenance t cache none r hra with h | ⟨hrmem, hrpos⟩
      · exact absurd h (by simp)
      have h10 : 10000 ≤ r.1 := by
        have := hfarA (t + r.1, r.2) hrmem (by simp; omega)
        simpa using this
      simp only [resolveScan]
      rw [if_neg (by omega)]
  | some q =>
    rcases foldl_stepBefore_provenance t cache none q hrb with h | ⟨hqmem, hqpos⟩
    · exact absurd h (by simp)
    have hq10 : 10000 ≤ q.1 := by
      have := hfarB (t - q.1, q.2) hqmem (by simp; omega)
      simpa using this
    cases hra : scanAfter cache t with
    | none =>
      simp only [resolveScan]
      rw [if_neg (by omega)]
    | some r =>
      rcases foldl_stepAfter_provenance t cache none r hra with h | ⟨hrmem, hrpos⟩
      · exact absurd h (by simp)
      have hr10 : 10000 ≤ r.1 := by
        have := hfarA (t + r.1, r.2) hrmem (by simp; omega)
        simpa using this
      simp only [resolveScan]
      rw [if_neg (by omega), if_neg (by omega), if_neg (by omega)]

/-!
### Concrete lookup scenarios

Test fixtures realising the scenarios named by the specification.
-/

/-- Event A of the interpolation scenario: t=1000, confidence 0.6. -/
def evA : FormationData :=
  { formation_id := "A", type := FormationType.Larry
    recommended_call := TriangleCall.StrongSide, confidence := 3/5
    video_timestamp := 1000, detection_timestamp := 0
    mel_results := { making_score := 10, efficiency_score := 30, logical_score := 50
                     combined_score := 30, stage_status := "", processing_timestamp := 0 }
    hash_position := "L", field_zone := "Midfield" }

/-- Event B of the interpolation scenario: t=2000, confidence 0.8. -/
def evB : FormationData :=
  { formation_id := "B", type := FormationType.Rita
    recommended_call := TriangleCall.WeakSide, confidence := 4/5
    video_timestamp := 2000, detection_timestamp := 0
    mel_results := { making_score := 20, efficiency_score := 40, logical_score := 60
                     combined_score := 40, stage_status := "", processing_timestamp := 0 }
    hash_position := "R", field_zone := "Midfield" }

/-- Cache holding exactly A (t=1000) and B (t=2000). -/
def cacheAB : FormationCache := [(1000, evA), (2000, evB)]

/-- A formation fixture with the given identifier and timestamp. -/
def mkFormation (id : String) (ts : ℤ) : FormationData :=
  { defaultFormationData with formation_id := id, video_timestamp := ts }

/-- Cache of the gap-policy scenario: events at t=1000 and t=20000. -/
def cacheGap : FormationCache := [(1000, mkFormation "C" 1000), (20000, mkFormation "D" 20000)]

/-- Cache of the closest-side scenario: events at t=0 and t=5500. -/
def cacheSkew : FormationCache := [(0, mkFormation "P" 0), (5500, mkFormation "Q" 5500)]

/-- C1: with A at t=1000 (confidence 0.6) and B at t=2000 (confidence 0.8) cached,
`GetFormationAt(1500)` returns the synthetic interpolated event — confidence 0.7, all
four M.E.L. scores at their linear midpoints — while `GetFormationAt(1000)` returns the
stored A unchanged; and in general, whenever a strictly earlier and a strictly later
entry both lie within the 5000 ms interpolation gap of the query (no exact match), the
lookup returns the linear interpolation of the two closest such entries. -/
theorem lookup_interpolation_correctness :
    GetFormationAtCounted cacheAB 1500 =
      (TriangleDefenseUtils.InterpolateFormation evA evB 1500, true) ∧
    (GetFormationAt cacheAB 1500).confidence = 7/10 ∧
    (GetFormationAt cacheAB 1500).mel_results.making_score = 15 ∧
    (GetFormationAt cacheAB 1500).mel_results.efficiency_score = 35 ∧
    (GetFormationAt cacheAB 1500).mel_results.logical_score = 55 ∧
    (GetFormationAt cacheAB 1500).mel_results.combined_score = 35 ∧
    GetFormationAtCounted cacheAB 1000 = (evA, true) ∧
    (∀ (cache : FormationCache) (t : ℤ),
      (∀ kv ∈ cache, kv.1 ≠ t) →
      (∃ kv ∈ cache, kv.1 < t ∧ t - kv.1 < 5000) →
      (∃ kv ∈ cache, t < kv.1 ∧ kv.1 - t < 5000) →
      ∃ kb fb ka fa, (kb, fb) ∈ cache ∧ (ka, fa) ∈ cache ∧
        kb < t ∧ t - kb < 5000 ∧ t < ka ∧ ka - t < 5000 ∧
        GetFormationAtCounted cache t =
          (TriangleDefenseUtils.InterpolateFormation fb fa t, true)) ∧
    (∀ (cache : FormationCache) (t kb ka : ℤ) (fb fa : FormationData),
      (cache.map Prod.fst).Nodup →
      (∀ kv ∈ cache, kv.1 ≠ t) →
      (kb, fb) ∈ cache → kb < t → t - kb < 5000 →
      (∀ kv ∈ cache, kv.1 ≤ t → t - kb ≤ t - kv.1) →
      (ka, fa) ∈ cache → t < ka → ka - t < 5000 →
      (∀ kv ∈ cache, t < kv.1 → ka - t ≤ kv.1 - t) →
      GetFormationAtCounted cache t =
        (TriangleDefenseUtils.InterpolateFormation fb fa t, true)) := by
  have hstep : GetFormationAt cacheAB 1500 =
      TriangleDefenseUtils.InterpolateFormation evA evB 1500 := rfl
  refine ⟨rfl, ?_, ?_, ?_, ?_, ?_, rfl, lookup_interpolates_of_both_within_gap,
    lookup_interpolates_closest⟩ <;>
    rw [hstep] <;> norm_num [TriangleDefenseUtils.InterpolateFormation, evA, evB]

/-- C1 witness: the general interpolation rule applied to the concrete two-event cache
at query 1500. -/
theorem lookup_interpolation_correctness_witness :
    GetFormationAtCounted cacheAB 1500 =
      (TriangleDefenseUtils.InterpolateFormation evA evB 1500, true) :=
  lookup_interpolation_correctness.2.2.2.2.2.2.2.2 cacheAB 1500 1000 2000 evA evB
    (by decide)
    (by decide)
    (List.mem_cons_self _ _) (by decide) (by decide)
    (by decide)
    (List.mem_cons_of_mem _ (List.mem_cons_self _ _)) (by decide) (by decide)
    (by decide)

/-- C2 as stated is false: with events at t=0 and t=5500 cached, the query t=5000 has
no interpolation pair (the earlier side is 5000 ms away), the later event at t=5500 is
the closest one (500 ms away, within every gap), yet the lookup returns the farther
earlier event P, not the closest event Q. -/
theorem lookup_closest_event_counterexample :
    GetFormationAtCounted cacheSkew 5000 = (mkFormation "P" 0, true) ∧
    mkFormation "P" 0 ≠ mkFormation "Q" 5500 ∧
    (5500 - 5000 : ℤ) < 5000 - 0 ∧
    (5500 - 5000 : ℤ) < 10000 ∧
    ¬ (5000 - (0 : ℤ) < 5000) := by
  refine ⟨rfl, ?_, by decide, by decide, by decide⟩
  intro h
  exact absurd (congrArg FormationData.formation_id h) (by decide)

/-- Cache of the after-side fallback scenario: events at t=0 and t=15500. -/
def cacheLate : FormationCache := [(0, mkFormation "P" 0), (15500, mkFormation "Q" 15500)]

/-- C2 (amended): when the interpolation condition fails, the lookup prefers the
earlier side — it returns the closest entry at or before the query if that entry is
within 10000 ms (whether or not a later entry is closer); else, when every entry at or
before the query is 10000 ms or more away, the closest later entry if within 10000 ms;
else the empty `FormationData` counted as a miss; with events only at t=1000 and
t=20000, `GetFormationAt(9000)` returns the event at t=1000. -/
theorem lookup_gap_fallback_prefers_before :
    GetFormationAtCounted cacheGap 9000 = (mkFormation "C" 1000, true) ∧
    (∀ (cache : FormationCache) (t kb : ℤ) (fb : FormationData),
      (cache.map Prod.fst).Nodup →
      (∀ kv ∈ cache, kv.1 ≠ t) →
      ((∀ kv ∈ cache, kv.1 ≤ t → 5000 ≤ t - kv.1) ∨
       (∀ kv ∈ cache, t < kv.1 → 5000 ≤ kv.1 - t)) →
      (kb, fb) ∈ cache → kb ≤ t → t - kb < 10000 →
      (∀ kv ∈ cache, kv.1 ≤ t → t - kb ≤ t - kv.1) →
      GetFormationAtCounted cache t = (fb, true)) ∧
    (∀ (cache : FormationCache) (t ka : ℤ) (fa : FormationData),
      (cache.map Prod.fst).Nodup →
      (∀ kv ∈ cache, kv.1 ≠ t) →
      (∀ kv ∈ cache, kv.1 ≤ t → 10000 ≤ t - kv.1) →
      (ka, fa) ∈ cache → t < ka → ka - t < 10000 →
      (∀ kv ∈ cache, t < kv.1 → ka - t ≤ kv.1 - t) →
      GetFormationAtCounted cache t = (fa, true)) ∧
    (∀ (cache : FormationCache) (t : ℤ),
      (∀ kv ∈ cache, kv.1 ≤ t → 10000 ≤ t - kv.1) →
      (∀ kv ∈ cache, t < kv.1 → 10000 ≤ kv.1 - t) →
      GetFormationAtCounted cache t = (defaultFormationData, false)) :=
  ⟨rfl, lookup_prefers_before_side, lookup_falls_back_to_after_side,
   lookup_misses_when_all_far⟩

/-- C2 witness: the before-side fallback applied to the concrete gap scenario — events
at t=1000 and t=20000, query 9000 — returns the event at t=1000; and the after-side
fallback applied to events at t=0 and t=15500, query 15000 — the earlier event is
15000 ms away, so the lookup returns the later event at t=15500. -/
theorem lookup_gap_fallback_prefers_before_witness :
    GetFormationAtCounted cacheGap 9000 = (mkFormation "C" 1000, true) ∧
    GetFormationAtCounted cacheLate 15000 = (mkFormation "Q" 15500, true) :=
  ⟨lookup_gap_fallback_prefers_before.2.1 cacheGap 9000 1000 (mkFormation "C" 1000)
    (by decide)
    (by decide)
    (Or.inl (by decide))
    (List.mem_cons_self _ _) (by decide) (by decide)
    (by decide),
   lookup_gap_fallback_prefers_before.2.2.1 cacheLate 15000 15500 (mkFormation "Q" 15500)
    (by decide)
    (by decide)
    (by decide)
    (List.mem_cons_of_mem _ (List.mem_cons_self _ _)) (by decide) (by decide)
    (by decide)⟩

/-!
### Non-numeric fields of the interpolation (claim C3)
-/

/-- The branch condition of `InterpolateFormation` — `ratio > 0.5` — holds exactly when
the target is strictly closer to the later event. -/
theorem interpolation_blend_gt_half_iff (b a : FormationData) (t : ℤ)
    (htb : b.video_timestamp < t) (hta : t < a.video_timestamp) :
    ((t - b.video_timestamp : ℤ) : ℚ) / ((a.video_timestamp - b.video_timestamp : ℤ) : ℚ)
      > 1/2 ↔ a.video_timestamp - t < t - b.video_timestamp := by
  have hD : (0:ℚ) < ((a.video_timestamp - b.video_timestamp : ℤ) : ℚ) := by
    have h : (0:ℤ) < a.video_timestamp - b.video_timestamp := by omega
    exact_mod_cast h
  rw [gt_iff_lt, lt_div_iff₀ hD]
  constructor
  · intro h
    have h2 : ((a.video_timestamp - t : ℤ) : ℚ) < ((t - b.video_timestamp : ℤ) : ℚ) := by
      push_cast at h ⊢
      linarith
    exact_mod_cast h2
  · intro h
    have h2 : ((a.video_timestamp - t : ℤ) : ℚ) < ((t - b.video_timestamp : ℤ) : ℚ) := by
      exact_mod_cast h
    push_cast at h2 ⊢
    linarith

/-- Fixture for the tie-break scenario: earlier event at t=1000 with its own
non-numeric fields. -/
def evTieB : FormationData :=
  { defaultFormationData with
    formation_id := "TB", type := FormationType.Larry,
    recommended_call := TriangleCall.StrongSide, video_timestamp := 1000,
    hash_position := "L", field_zone := "Midfield" }

/-- Fixture for the tie-break scenario: later event at t=2000 with different
non-numeric fields. -/
def evTieA : FormationData :=
  { defaultFormationData with
    formation_id := "TA", type := FormationType.Rita,
    recommended_call := TriangleCall.WeakSide, video_timestamp := 2000,
    hash_position := "R", field_zone := "Red Zone" }

/-- C3 as stated is false at an exactly equidistant target: with the earlier event at
t=1000 and the later at t=2000, the target 1500 is equidistant from both, yet every
non-numeric field of the synthetic event comes from the earlier event, not the later
one as the claim demands. -/
theorem interpolation_tie_break_counterexample :
    (2000 : ℤ) - 1500 = 1500 - 1000 ∧
    (TriangleDefenseUtils.InterpolateFormation evTieB evTieA 1500).type = evTieB.type ∧
    (TriangleDefenseUtils.InterpolateFormation evTieB evTieA 1500).recommended_call =
      evTieB.recommended_call ∧
    (TriangleDefenseUtils.InterpolateFormation evTieB evTieA 1500).hash_position =
      evTieB.hash_position ∧
    (TriangleDefenseUtils.InterpolateFormation evTieB evTieA 1500).field_zone =
      evTieB.field_zone ∧
    evTieB.type ≠ evTieA.type ∧
    evTieB.recommended_call ≠ evTieA.recommended_call ∧
    evTieB.hash_position ≠ evTieA.hash_position ∧
    evTieB.field_zone ≠ evTieA.field_zone := by
  have hhalf : ¬ (((1500 - evTieB.video_timestamp : ℤ) : ℚ) /
      ((evTieA.video_timestamp - evTieB.video_timestamp : ℤ) : ℚ) > 1/2) := by
    rw [interpolation_blend_gt_half_iff evTieB evTieA 1500 (by decide) (by decide)]
    decide
  refine ⟨by decide, ?_, ?_, ?_, ?_, by decide, by decide, by decide, by decide⟩ <;>
    · simp only [TriangleDefenseUtils.InterpolateFormation]
      rw [if_neg hhalf]

/-- C3 (amended): in an interpolated lookup the non-numeric fields — formation type,
recommended call, hash position, field zone — are taken from the temporally closer of
the two surrounding events, with ties at exact equidistance resolved in favour of the
*earlier* event (the `ratio > 0.5` branch is strict). -/
theorem interpolation_nonnumeric_closer_side (b a : FormationData) (t : ℤ)
    (htb : b.video_timestamp < t) (hta : t < a.video_timestamp) :
    (a.video_timestamp - t < t - b.video_timestamp →
      (TriangleDefenseUtils.InterpolateFormation b a t).type = a.type ∧
      (TriangleDefenseUtils.InterpolateFormation b a t).recommended_call =
        a.recommended_call ∧
      (TriangleDefenseUtils.InterpolateFormation b a t).hash_position = a.hash_position ∧
      (TriangleDefenseUtils.InterpolateFormation b a t).field_zone = a.field_zone) ∧
    (t - b.video_timestamp ≤ a.video_timestamp - t →
      (TriangleDefenseUtils.InterpolateFormation b a t).type = b.type ∧
      (TriangleDefenseUtils.InterpolateFormation b a t).recommended_call =
        b.recommended_call ∧
      (TriangleDefenseUtils.InterpolateFormation b a t).hash_position = b.hash_position ∧
      (TriangleDefenseUtils.InterpolateFormation b a t).field_zone = b.field_zone) := by
  constructor
  · intro hclose
    have hcond : ((t - b.video_timestamp : ℤ) : ℚ) /
        ((a.video_timestamp - b.video_timestamp : ℤ) : ℚ) > 1/2 :=
      (interpolation_blend_gt_half_iff b a t htb hta).mpr hclose
    refine ⟨?_, ?_, ?_, ?_⟩ <;>
      · simp only [TriangleDefenseUtils.InterpolateFormation]
        rw [if_pos hcond]
  · intro hfar
    have hcond : ¬ (((t - b.video_timestamp : ℤ) : ℚ) /
        ((a.video_timestamp - b.video_timestamp : ℤ) : ℚ) > 1/2) := by
      rw [interpolation_blend_gt_half_iff b a t htb hta]
      omega
    refine ⟨?_, ?_, ?_, ?_⟩ <;>
      · simp only [TriangleDefenseUtils.InterpolateFormation]
        rw [if_neg hcond]

/-- C3 witness: the closer-side rule applied at a target strictly closer to the later
event (t=1900 between 1000 and 2000) yields the later event's formation type, and at an
equidistant target (t=1500) the earlier event's. -/
theorem interpolation_nonnumeric_closer_side_witness :
    (TriangleDefenseUtils.InterpolateFormation evTieB evTieA 1900).type = evTieA.type ∧
    (TriangleDefenseUtils.InterpolateFormation evTieB evTieA 1500).type = evTieB.type :=
  ⟨((interpolation_nonnumeric_closer_side evTieB evTieA 1900 (by decide)
      (by decide)).1 (by decide)).1,
   ((interpolation_nonnumeric_closer_side evTieB evTieA 1500 (by decide)
      (by decide)).2 (by decide)).1⟩

/-!
## Push-message ingestion (claim C6)
-/

/-- `QString::toLower`, written at the character-list level so that it evaluates by
kernel reduction. -/
def stringToLower (s : String) : String := String.mk (s.data.map Char.toLower)

/-- `TriangleDefenseSync::ParseFormationType` (triangle_defense_sync.cpp:804). -/
def ParseFormationType (type_string : String) : FormationType :=
  let t := stringToLower type_string
  if t = "larry" then FormationType.Larry
  else if t = "linda" then FormationType.Linda
  else if t = "rita" then FormationType.Rita
  else if t = "ricky" then FormationType.Ricky
  else if t = "randy" then FormationType.Randy
  else if t = "pat" then FormationType.Pat
  else FormationType.Unknown

/-- Occurrence of `needle` as a contiguous run inside `hay`. -/
def containsSeq (hay needle : List Char) : Bool :=
  match hay with
  | [] => needle.isEmpty
  | _ :: tl => needle.isPrefixOf hay || containsSeq tl needle

/-- `QString::contains(sub, Qt::CaseInsensitive)`. -/
def qstringContainsCI (s sub : String) : Bool :=
  containsSeq (stringToLower s).data (stringToLower sub).data

/-- `TriangleDefenseSync::DetermineTriangleCall` (triangle_defense_sync.cpp:923). -/
def DetermineTriangleCall (formation : FormationData) : TriangleCall :=
  if qstringContainsCI formation.field_zone "Red Zone" then
    if formation.type = FormationType.Larry ∨ formation.type = FormationType.Linda then
      TriangleCall.GoalLine
    else TriangleCall.RedZone
  else if formation.hash_position = "L" then TriangleCall.LeftHash
  else if formation.hash_position = "R" then TriangleCall.RightHash
  else if formation.hash_position = "M" then TriangleCall.MiddleHash
  else
    match formation.type with
    | FormationType.Larry | FormationType.Linda => TriangleCall.StrongSide
    | FormationType.Rita | FormationType.Randy => TriangleCall.WeakSide
    | FormationType.Ricky =>
      if formation.mel_results.combined_score > 70 then TriangleCall.StrongSide
      else TriangleCall.WeakSide
    | _ => TriangleCall.NoCall

/-- The cache write of `TriangleDefenseSync::UpdateFormationCache`
(triangle_defense_sync.cpp:856): `formation_cache_[formation.video_timestamp] =
formation`, an insert-or-assign keyed by the video timestamp (the SQL mirror is a side
channel). The position of a fresh key in the association list is immaterial to every
lookup above. -/
def UpdateFormationCache (cache : FormationCache) (formation : FormationData) :
    FormationCache :=
  if cache.any (fun kv => kv.1 == formation.video_timestamp) then
    cache.map (fun kv => if kv.1 == formation.video_timestamp then (kv.1, formation) else kv)
  else cache ++ [(formation.video_timestamp, formation)]

/-- The payload fields of a `formation_detected` push message that
`ProcessFormationDetection` reads. -/
structure DetectionMessage where
  formation_id : String
  formation_type : String
  confidence : ℚ
  video_timestamp : ℤ
  hash_position : String
  field_zone : String
deriving DecidableEq, Repr

/-- `TriangleDefenseSync::ProcessFormationDetection` (triangle_defense_sync.cpp:997):
builds a `FormationData` from the push payload — parsing the kind string, taking the
confidence as sent, stamping `detection_timestamp` with the wall clock `now` — derives
the Triangle call and stores the event in the formation cache. No validation, rejection
or clamping is performed. -/
def ProcessFormationDetection (now : ℤ) (cache : FormationCache)
    (detection : DetectionMessage) : FormationCache :=
  let f0 : FormationData :=
    { formation_id := detection.formation_id
      type := ParseFormationType detection.formation_type
      recommended_call := TriangleCall.NoCall
      confidence := detection.confidence
      video_timestamp := detection.video_timestamp
      detection_timestamp := now
      mel_results := defaultMELResult
      hash_position := detection.hash_position
      field_zone := detection.field_zone }
  let f := { f0 with recommended_call := DetermineTriangleCall f0 }
  UpdateFormationCache cache f

/-- `TriangleDefenseUtils::ValidateFormationData` (triangle_defense_sync.cpp:1243) —
the repository's own validator, which no caller in the repository invokes. -/
def ValidateFormationData (formation : FormationData) : Bool :=
  if formation.formation_id = "" then false
  else if formation.confidence < 0 ∨ formation.confidence > 1 then false
  else if formation.video_timestamp ≤ 0 then false
  else if formation.type = FormationType.Unknown then false
  else true

/-- A push payload with an unknown kind string and an out-of-range confidence. -/
def invalidDetection : DetectionMessage :=
  { formation_id := "f1", formation_type := "wishbone", confidence := 3/2
    video_timestamp := 100, hash_position := "", field_zone := "" }

/-- The event that ingestion builds from `invalidDetection` at wall clock 5. -/
def storedInvalid : FormationData :=
  { formation_id := "f1", type := FormationType.Unknown
    recommended_call := TriangleCall.NoCall, confidence := 3/2
    video_timestamp := 100, detection_timestamp := 5
    mel_results := defaultMELResult, hash_position := "", field_zone := "" }

/-- C6: evaluating the ingestion boundary at the failing input. A push message whose
kind string parses to `Unknown` and whose confidence is 1.5 is stored in the formation
cache verbatim — kind `Unknown`, confidence unclamped at 1.5 — even though the
repository's own (never invoked) `ValidateFormationData` rejects exactly this event.
The spec instead demands rejection of unknown kinds and clamping of confidence into
[0,1] at this boundary. -/
theorem ingestion_stores_invalid_event :
    ParseFormationType "wishbone" = FormationType.Unknown ∧
    ProcessFormationDetection 5 [] invalidDetection = [(100, storedInvalid)] ∧
    storedInvalid.type = FormationType.Unknown ∧
    storedInvalid.confidence = 3/2 ∧
    ¬ (storedInvalid.confidence ≤ 1) ∧
    ValidateFormationData storedInvalid = false := by
  refine ⟨rfl, rfl, rfl, rfl, ?_, ?_⟩
  · show ¬ ((3 : ℚ)/2 ≤ 1)
    norm_num
  · show ValidateFormationData storedInvalid = false
    unfold ValidateFormationData
    rw [if_neg (by decide : ¬ (storedInvalid.formation_id = ""))]
    rw [if_pos (Or.inr (by norm_num [storedInvalid] : storedInvalid.confidence > 1))]

/-!
## Timeline markers (`VideoTimelineSync`, claims C7 and C9)

`timeline_markers_` is a `QMap<QString, TimelineMarker>` keyed by `marker_id`, modelled
as a list of markers with removal/insert keyed by the id. Marker `description`,
`metadata` and `QColor` are not carried (no claim reads them); `GenerateMarkerId` draws
a random suffix and is modelled as an oracle argument `freshId`.
-/

/-- Timeline marker kinds (video_timeline_sync.h). -/
inductive TimelineMarkerType where
  | Formation
  | TriangleCall
  | CoachingAlert
  | ManualAnnotation
  | MELScore
  | VideoEvent
  | Highlight
deriving DecidableEq, Repr

/-- The integer value of a `TimelineMarkerType`, as `static_cast<int>` yields it. -/
def markerTypeIdx : TimelineMarkerType → ℤ
  | TimelineMarkerType.Formation => 0
  | TimelineMarkerType.TriangleCall => 1
  | TimelineMarkerType.CoachingAlert => 2
  | TimelineMarkerType.ManualAnnotation => 3
  | TimelineMarkerType.MELScore => 4
  | TimelineMarkerType.VideoEvent => 5
  | TimelineMarkerType.Highlight => 6

/-- The integer value of a `FormationType`, as `static_cast<int>` yields it. -/
def formationTypeIdx : FormationType → ℤ
  | FormationType.Larry => 0
  | FormationType.Linda => 1
  | FormationType.Rita => 2
  | FormationType.Ricky => 3
  | FormationType.Randy => 4
  | FormationType.Pat => 5
  | FormationType.Unknown => 6

/-- Timeline marker visual properties (video_timeline_sync.h); `description`,
`color` and `metadata` are not modelled. -/
structure TimelineMarker where
  marker_id : String
  type : TimelineMarkerType
  timestamp : ℤ
  label : String
  height_scale : ℚ
  animated : Bool
  user_created : Bool
  priority : ℤ
deriving DecidableEq, Repr

/-- The `TimelineMarker()` default constructor. -/
def defaultTimelineMarker : TimelineMarker :=
  { marker_id := "", type := TimelineMarkerType.Formation, timestamp := 0, label := ""
    height_scale := 1, animated := false, user_created := false, priority := 0 }

/-- `qBound(lo, v, hi) = qMax(lo, qMin(hi, v))`. -/
def qBound {A : Type} [LinearOrder A] (lo v hi : A) : A := max lo (min hi v)

/-- `VideoTimelineSync::ValidateMarkerData` (video_timeline_sync.cpp:1192): clamps a
negative timestamp to 0, `height_scale` into [0.1, 1], `priority` into [0, 10], and
fills an empty label with `M<type index>` (the default-`QColor` step is not
modelled). -/
def ValidateMarkerData (marker : TimelineMarker) : TimelineMarker :=
  let m1 := if marker.timestamp < 0 then { marker with timestamp := 0 } else marker
  let m2 := { m1 with height_scale := qBound (1/10) m1.height_scale 1 }
  let m3 := { m2 with priority := qBound 0 m2.priority 10 }
  if m3.label = "" then { m3 with label := "M" ++ toString (markerTypeIdx m3.type) }
  else m3

/-- The marker that `CleanupOldMarkers` (video_timeline_sync.cpp:1076) collects for
removal: not user-created, priority below 5, and older than the retention window
behind the current video position. -/
def staleAutoMarker (retention current_pos : ℤ) (m : TimelineMarker) : Bool :=
  !m.user_created && decide (m.priority < 5) &&
    decide (m.timestamp < current_pos - retention)

/-- `VideoTimelineSync::CleanupOldMarkers` (video_timeline_sync.cpp:1064): a no-op
unless auto-cleanup is enabled; otherwise removes by id exactly the stale auto markers
(ids are unique, so the removal loop is a filter). -/
def CleanupOldMarkers (auto_cleanup : Bool) (retention current_pos : ℤ)
    (markers : List TimelineMarker) : List TimelineMarker :=
  if auto_cleanup then markers.filter (fun m => !staleAutoMarker retention current_pos m)
  else markers

/-- The configuration members of `VideoTimelineSync` the marker store reads. -/
structure MarkerConfig where
  max_markers : ℕ
  auto_cleanup_enabled : Bool
  marker_retention_time_ms : ℤ
deriving DecidableEq, Repr

/-- Constructor defaults of video_timeline_sync.cpp: `max_markers_` 10000,
auto-cleanup on, retention one hour. -/
def defaultMarkerConfig : MarkerConfig :=
  { max_markers := 10000, auto_cleanup_enabled := true
    marker_retention_time_ms := 3600000 }

/-- `timeline_markers_[id] = marker`: insert-or-assign keyed by `marker_id`. -/
def insertMarker (markers : List TimelineMarker) (m : TimelineMarker) :
    List TimelineMarker :=
  if markers.any (fun x => x.marker_id == m.marker_id) then
    markers.map (fun x => if x.marker_id == m.marker_id then m else x)
  else markers ++ [m]

/-- The marker-store effect of `VideoTimelineSync::AddTimelineMarker`
(video_timeline_sync.cpp:293): validate, fill an empty id from the generator, run
`CleanupOldMarkers` when the store is at or above `max_markers_`, then insert. -/
def AddTimelineMarker (cfg : MarkerConfig) (current_pos : ℤ) (freshId : String)
    (markers : List TimelineMarker) (marker : TimelineMarker) : List TimelineMarker :=
  let vm0 := ValidateMarkerData marker
  let vm := if vm0.marker_id = "" then { vm0 with marker_id := freshId } else vm0
  let ms :=
    if cfg.max_markers ≤ markers.length then
      CleanupOldMarkers cfg.auto_cleanup_enabled cfg.marker_retention_time_ms
        current_pos markers
    else markers
  insertMarker ms vm

/-- `ValidateMarkerData` never changes the marker id. -/
theorem validateMarkerData_id (m : TimelineMarker) :
    (ValidateMarkerData m).marker_id = m.marker_id := by
  simp only [ValidateMarkerData]
  split_ifs <;> rfl

/-- Automatic cleanup never removes a user-created marker. -/
theorem cleanup_keeps_user_markers (flag : Bool) (retention current_pos : ℤ)
    (markers : List TimelineMarker) (m : TimelineMarker)
    (hm : m ∈ markers) (hu : m.user_created = true) :
    m ∈ CleanupOldMarkers flag retention current_pos markers := by
  unfold CleanupOldMarkers
  split_ifs with hf
  · exact List.mem_filter.mpr ⟨hm, by simp [staleAutoMarker, hu]⟩
  · exact hm

/-- With auto-cleanup enabled, every stale auto marker is removed. -/
theorem cleanup_removes_stale_markers (retention current_pos : ℤ)
    (markers : List TimelineMarker) (m : TimelineMarker)
    (hu : m.user_created = false) (hp : m.priority < 5)
    (ht : m.timestamp < current_pos - retention) :
    m ∉ CleanupOldMarkers true retention current_pos markers := by
  unfold CleanupOldMarkers
  simp [List.mem_filter, staleAutoMarker, hu, hp, ht]

/-- Cleanup is the identity when no marker is stale. -/
theorem cleanup_noop_of_no_stale (flag : Bool) (retention current_pos : ℤ)
    (markers : List TimelineMarker)
    (h : ∀ m ∈ markers, staleAutoMarker retention current_pos m = false) :
    CleanupOldMarkers flag retention current_pos markers = markers := by
  unfold CleanupOldMarkers
  split_ifs with hf
  · rw [List.filter_eq_self]
    intro a ha
    simp [h a ha]
  · rfl

/-- Inserting a marker whose id is fresh appends it. -/
theorem insertMarker_append (markers : List TimelineMarker) (m : TimelineMarker)
    (h : ∀ x ∈ markers, x.marker_id ≠ m.marker_id) :
    insertMarker markers m = markers ++ [m] := by
  unfold insertMarker
  rw [if_neg]
  simp only [List.any_eq_true, beq_iff_eq, not_exists]
  intro x hx
  exact h x hx.1 hx.2

/-- Adding a fresh, non-stale-evicting marker while the store holds no stale auto
marker appends it — whatever the store size, in particular at or above
`max_markers`. -/
theorem addMarker_appends_when_nothing_stale (cfg : MarkerConfig)
    (current_pos : ℤ) (freshId : String) (markers : List TimelineMarker)
    (marker : TimelineMarker)
    (hid : marker.marker_id ≠ "")
    (hfresh : ∀ x ∈ markers, x.marker_id ≠ marker.marker_id)
    (hnostale : ∀ m ∈ markers,
      staleAutoMarker cfg.marker_retention_time_ms current_pos m = false) :
    AddTimelineMarker cfg current_pos freshId markers marker =
      markers ++ [ValidateMarkerData marker] := by
  have hide : (ValidateMarkerData marker).marker_id = marker.marker_id :=
    validateMarkerData_id marker
  simp only [AddTimelineMarker]
  rw [if_neg (show ¬ (ValidateMarkerData marker).marker_id = "" by rw [hide]; exact hid)]
  have hfresh2 : ∀ x ∈ markers, x.marker_id ≠ (ValidateMarkerData marker).marker_id := by
    intro x hx
    rw [hide]
    exact hfresh x hx
  split_ifs with hlen
  · rw [cleanup_noop_of_no_stale _ _ _ _ hnostale]
    exact insertMarker_append _ _ hfresh2
  · exact insertMarker_append _ _ hfresh2

/-- An auto-generated marker fixture: id of `i+1` letters, timestamp `i`, priority 1,
not user-created. -/
def autoMarker (i : ℕ) : TimelineMarker :=
  { defaultTimelineMarker with
    marker_id := String.mk (List.replicate (i + 1) 'a'), timestamp := (i : ℤ),
    label := "x", priority := 1 }

/-- `n` distinct auto-generated markers. -/
def autoMarkers (n : ℕ) : List TimelineMarker := (List.range n).map autoMarker

/-- A fresh auto marker to add on top of a full store. -/
def overflowMarker : TimelineMarker :=
  { defaultTimelineMarker with
    marker_id := "b", timestamp := 10000, label := "x", priority := 1,
    height_scale := 1/2 }

/-- No auto-generated fixture carries the id "b". -/
theorem autoMarker_id_ne (i : ℕ) : (autoMarker i).marker_id ≠ "b" := by
  intro h
  have hdata : (String.mk (List.replicate (i + 1) 'a')).data = "b".data :=
    congrArg String.data h
  simp only [List.replicate_succ] at hdata
  have hab : 'a' = 'b' := by
    have hh := congrArg (fun l => l.headI) hdata
    simp at hh
  exact absurd hab (by decide)

/-- C7 as stated is false on its eviction half: at the default configuration
(`max_markers` = 10000), a store holding 10000 recent auto-generated markers —
every one of them auto, none older than the retention window — grows to 10001 when one
more marker is added: the triggered cleanup is retention-based and evicts nothing, so
the oldest auto marker is not removed and the count exceeds the limit. -/
theorem marker_eviction_counterexample :
    (autoMarkers 10000).length = defaultMarkerConfig.max_markers ∧
    (autoMarkers 10000).all (fun m => !m.user_created) = true ∧
    AddTimelineMarker defaultMarkerConfig 9999 "g" (autoMarkers 10000) overflowMarker =
      autoMarkers 10000 ++ [ValidateMarkerData overflowMarker] ∧
    (AddTimelineMarker defaultMarkerConfig 9999 "g" (autoMarkers 10000)
        overflowMarker).length = 10001 := by
  have hlen : (autoMarkers 10000).length = 10000 := by
    simp [autoMarkers]
  have hmem : ∀ m ∈ autoMarkers 10000, ∃ i, i < 10000 ∧ m = autoMarker i := by
    intro m hm
    obtain ⟨i, hi, rfl⟩ := List.mem_map.mp hm
    exact ⟨i, List.mem_range.mp hi, rfl⟩
  have happ : AddTimelineMarker defaultMarkerConfig 9999 "g" (autoMarkers 10000)
      overflowMarker = autoMarkers 10000 ++ [ValidateMarkerData overflowMarker] := by
    apply addMarker_appends_when_nothing_stale
    · decide
    · intro x hx
      obtain ⟨i, _, rfl⟩ := hmem x hx
      exact autoMarker_id_ne i
    · intro m hm
      obtain ⟨i, _, rfl⟩ := hmem m hm
      simp [staleAutoMarker, autoMarker, defaultTimelineMarker, defaultMarkerConfig]
      omega
  refine ⟨hlen, ?_, happ, ?_⟩
  · rw [List.all_eq_true]
    intro m hm
    obtain ⟨i, _, rfl⟩ := hmem m hm
    rfl
  · rw [happ, List.length_append, hlen]
    rfl

/-- C7 (amended): automatic cleanup never removes user-created markers; it removes
exactly the auto markers with priority below 5 that are older than the retention
window behind the current video position. Adding a marker while the store is at
`max_markers` triggers this retention-based cleanup rather than a count-based
eviction: when no stored marker is stale the new marker is appended and the count
exceeds the limit. -/
theorem marker_eviction_preserves_user_markers :
    (∀ (flag : Bool) (retention current_pos : ℤ) (markers : List TimelineMarker)
        (m : TimelineMarker), m ∈ markers → m.user_created = true →
        m ∈ CleanupOldMarkers flag retention current_pos markers) ∧
    (∀ (retention current_pos : ℤ) (markers : List TimelineMarker)
        (m : TimelineMarker), m.user_created = false → m.priority < 5 →
        m.timestamp < current_pos - retention →
        m ∉ CleanupOldMarkers true retention current_pos markers) ∧
    (∀ (cfg : MarkerConfig) (current_pos : ℤ) (freshId : String)
        (markers : List TimelineMarker) (marker : TimelineMarker),
        marker.marker_id ≠ "" →
        (∀ x ∈ markers, x.marker_id ≠ marker.marker_id) →
        (∀ m ∈ markers,
          staleAutoMarker cfg.marker_retention_time_ms current_pos m = false) →
        AddTimelineMarker cfg current_pos freshId markers marker =
          markers ++ [ValidateMarkerData marker]) :=
  ⟨cleanup_keeps_user_markers, cleanup_removes_stale_markers,
   addMarker_appends_when_nothing_stale⟩

/-- C7 witness: the append rule of the amended claim applied to a concrete store of two
recent auto markers at a `max_markers` = 2 configuration. -/
theorem marker_eviction_preserves_user_markers_witness :
    AddTimelineMarker
        { max_markers := 2, auto_cleanup_enabled := true
          marker_retention_time_ms := 3600000 }
        1 "g" [autoMarker 0, autoMarker 1] overflowMarker =
      [autoMarker 0, autoMarker 1] ++ [ValidateMarkerData overflowMarker] :=
  marker_eviction_preserves_user_markers.2.2
    { max_markers := 2, auto_cleanup_enabled := true
      marker_retention_time_ms := 3600000 }
    1 "g" [autoMarker 0, autoMarker 1] overflowMarker
    (by decide)
    (by decide)
    (by decide)

/-!
## Marker derivation from events (claim C9)
-/

/-- `static_cast<int>` of a floating value: truncation toward zero. -/
def ratTrunc (x : ℚ) : ℤ := if x < 0 then -(Int.floor (-x)) else Int.floor x

/-- `VideoTimelineSync::CreateFormationMarker` (video_timeline_sync.cpp:804), restricted
to the modelled marker fields: animated exactly when the formation confidence exceeds
0.8. -/
def CreateFormationMarker (formation : FormationData) : TimelineMarker :=
  { defaultTimelineMarker with
    type := TimelineMarkerType.Formation,
    timestamp := formation.video_timestamp,
    label := "F" ++ toString (formationTypeIdx formation.type),
    height_scale := 4/5,
    animated := decide (formation.confidence > 4/5),
    priority := ratTrunc (formation.confidence * 10) }

/-- `VideoTimelineSync::CreateCoachingAlertMarker` (video_timeline_sync.cpp:852):
animated exactly when the alert priority level is at least 3. -/
def CreateCoachingAlertMarker (alert : CoachingAlert) : TimelineMarker :=
  { defaultTimelineMarker with
    type := TimelineMarkerType.CoachingAlert,
    timestamp := alert.video_timestamp,
    label := "A" ++ toString alert.priority_level,
    height_scale := 1/5 + (alert.priority_level : ℚ) * (3/20),
    animated := decide (alert.priority_level ≥ 3),
    priority := alert.priority_level }

/-- `VideoTimelineSync::CreateMELScoreMarker` (video_timeline_sync.cpp:879): animated
exactly when the combined M.E.L. score is at least 85. -/
def CreateMELScoreMarker (formation_id : String) (results : MELResult) :
    TimelineMarker :=
  { defaultTimelineMarker with
    type := TimelineMarkerType.MELScore,
    timestamp := results.processing_timestamp,
    label := "M" ++ toString (ratTrunc results.combined_score),
    height_scale := results.combined_score / 100,
    animated := decide (results.combined_score ≥ 85),
    priority := ratTrunc (results.combined_score / 10) }

/-- An alert fixture at priority level 3. -/
def alertPrio3 : CoachingAlert := { defaultCoachingAlert with priority_level := 3 }

/-- An M.E.L. result fixture with combined score exactly 85. -/
def mel85 : MELResult := { defaultMELResult with combined_score := 85 }

/-- C9 as stated is false at its boundaries: a coaching alert of priority level 3
produces an animated marker although 3 < 4 (the code threshold is `>= 3`, not `>= 4`),
and an M.E.L. result with combined score exactly 85 produces an animated marker
although 85 is not greater than 85 (the code threshold is `>= 85`, not `> 85`). -/
theorem marker_animated_threshold_counterexample :
    (CreateCoachingAlertMarker alertPrio3).animated = true ∧
    ¬ ((3 : ℤ) ≥ 4) ∧
    (CreateMELScoreMarker "m" mel85).animated = true ∧
    ¬ ((85 : ℚ) > 85) := by
  refine ⟨?_, by decide, ?_, by norm_num⟩
  · simp [CreateCoachingAlertMarker, alertPrio3, defaultCoachingAlert]
  · simp only [CreateMELScoreMarker, mel85, defaultMELResult, decide_eq_true_eq]
    norm_num

/-- C9 (amended): the animated flag of a derived marker is set exactly when the
kind-specific threshold is met — formation confidence strictly above 0.8, coaching
alert priority level at least 3, and combined M.E.L. score at least 85. -/
theorem marker_animated_thresholds (formation : FormationData)
    (alert : CoachingAlert) (formation_id : String) (results : MELResult) :
    ((CreateFormationMarker formation).animated = true ↔
      formation.confidence > 4/5) ∧
    ((CreateCoachingAlertMarker alert).animated = true ↔ alert.priority_level ≥ 3) ∧
    ((CreateMELScoreMarker formation_id results).animated = true ↔
      results.combined_score ≥ 85) := by
  refine ⟨?_, ?_, ?_⟩ <;>
    simp [CreateFormationMarker, CreateCoachingAlertMarker, CreateMELScoreMarker]

/-!
## Active alerts (claim C10)

`alert_cache_` is a `QMap<QString, CoachingAlert>` keyed by alert id.
`GetActiveAlerts` collects the unacknowledged, less-than-one-hour-old alerts and
`std::sort`s them with a strict priority-then-recency comparator; any `std::sort`
result is a permutation of the collected list sorted under the reflexive closure of
that comparator, which the insertion sort below realises.
-/

/-- The filter of `GetActiveAlerts` (triangle_defense_sync.cpp:242): not acknowledged
and strictly less than 3600000 ms old. -/
def alertActive (current_time : ℤ) (alert : CoachingAlert) : Bool :=
  !alert.acknowledged && decide (current_time - alert.alert_timestamp < 3600000)

/-- The (reflexive) ordering realised by the comparator of `GetActiveAlerts`
(triangle_defense_sync.cpp:248): higher priority first, ties by newer alert
timestamp first. -/
def alertPriorityOrder (a b : CoachingAlert) : Prop :=
  b.priority_level < a.priority_level ∨
    (a.priority_level = b.priority_level ∧ b.alert_timestamp ≤ a.alert_timestamp)

instance : DecidableRel alertPriorityOrder := fun a b => by
  unfold alertPriorityOrder
  infer_instance

instance : IsTotal CoachingAlert alertPriorityOrder :=
  ⟨fun a b => by
    unfold alertPriorityOrder
    omega⟩

instance : IsTrans CoachingAlert alertPriorityOrder :=
  ⟨fun a b c hab hbc => by
    simp only [alertPriorityOrder] at hab hbc ⊢
    omega⟩

/-- `TriangleDefenseSync::GetActiveAlerts` (triangle_defense_sync.cpp:231). -/
def GetActiveAlerts (current_time : ℤ)
    (alert_cache : List (String × CoachingAlert)) : List CoachingAlert :=
  List.insertionSort alertPriorityOrder
    ((alert_cache.map Prod.snd).filter (alertActive current_time))

/-- `GetActiveAlerts` together with the alert cache it leaves behind: the method is
`const` and takes the cache mutex only to read, so the cache after the call is the
cache before it. -/
def GetActiveAlertsWithCache (current_time : ℤ)
    (alert_cache : List (String × CoachingAlert)) :
    List CoachingAlert × List (String × CoachingAlert) :=
  (GetActiveAlerts current_time alert_cache, alert_cache)

/-- C10: `GetActiveAlerts` returns exactly the cached alerts that are unacknowledged
and strictly less than one hour old — a permutation of the filtered cache values —
sorted by priority level descending with ties by alert timestamp descending, and it
leaves the alert cache unchanged. -/
theorem active_alerts_filter_and_sort (current_time : ℤ)
    (alert_cache : List (String × CoachingAlert)) :
    (GetActiveAlerts current_time alert_cache).Perm
      ((alert_cache.map Prod.snd).filter (alertActive current_time)) ∧
    List.Sorted alertPriorityOrder (GetActiveAlerts current_time alert_cache) ∧
    (∀ a ∈ GetActiveAlerts current_time alert_cache,
      a.acknowledged = false ∧ current_time - a.alert_timestamp < 3600000) ∧
    (∀ a, a ∈ GetActiveAlerts current_time alert_cache ↔
      a ∈ alert_cache.map Prod.snd ∧ a.acknowledged = false ∧
        current_time - a.alert_timestamp < 3600000) ∧
    GetActiveAlertsWithCache current_time alert_cache =
      (GetActiveAlerts current_time alert_cache, alert_cache) := by
  have hmem : ∀ a, a ∈ GetActiveAlerts current_time alert_cache ↔
      a ∈ alert_cache.map Prod.snd ∧ a.acknowledged = false ∧
        current_time - a.alert_timestamp < 3600000 := by
    intro a
    unfold GetActiveAlerts
    rw [List.mem_insertionSort, List.mem_filter]
    simp [alertActive]
  refine ⟨List.perm_insertionSort _ _, List.sorted_insertionSort _ _, ?_, hmem, rfl⟩
  intro a ha
  exact ((hmem a).mp ha).2

/-!
## Bounded event queue with backpressure (claim C8)
-/

/-- Sync event for timeline coordination (video_timeline_sync.h); the JSON blob
`event_data` is not modelled. -/
structure SyncEvent where
  event_id : String
  event_type : String
  video_timestamp : ℤ
  system_timestamp : ℤ
  confidence : ℚ
  source_component : String
  requires_ui_update : Bool
deriving DecidableEq, Repr

/-- Modelled from the spec: the priority class of a queued event — §4.5 distinguishes
"low-priority events" from "higher-priority events (critical alerts)". -/
inductive EventPriorityClass where
  | low
  | critical
deriving DecidableEq, Repr

/-- Modelled from the spec: a queue entry, a sync event together with its priority
class. The `SyncEvent` of video_timeline_sync.h carries no priority of its own. -/
structure QueuedEvent where
  event : SyncEvent
  priorityClass : EventPriorityClass
deriving DecidableEq, Repr

/-- Whether a queued event is low-priority. -/
def isLowPriority (e : QueuedEvent) : Bool :=
  e.priorityClass = EventPriorityClass.low

/-- Modelled from the spec: the submission path that feeds `event_queue_` is missing
from src/ — video_timeline_sync.{h,cpp} declare the bounded FIFO queue (capacity
`max_queue_size_`, default 1000) and its drain loop `ProcessEventQueue`, but nothing
enqueues into it. Per §4.5 of the spec: when the queue is full, a new low-priority
event is dropped and counted (not retried); a higher-priority event displaces the
oldest low-priority entry if necessary. The state is the queue plus the
dropped-events counter. -/
def SubmitSyncEvent (max_queue_size : ℕ) (queue : List QueuedEvent) (dropped : ℕ)
    (e : QueuedEvent) : List QueuedEvent × ℕ :=
  if queue.length < max_queue_size then (queue ++ [e], dropped)
  else if isLowPriority e then (queue, dropped + 1)
  else if queue.any isLowPriority then (queue.eraseP isLowPriority ++ [e], dropped)
  else (queue, dropped + 1)

/-- A low-priority event fixture. -/
def lowEv : QueuedEvent :=
  { event := { event_id := "low", event_type := "formation_detected"
               video_timestamp := 0, system_timestamp := 0, confidence := 1
               source_component := "", requires_ui_update := true }
    priorityClass := EventPriorityClass.low }

/-- A critical-priority event fixture. -/
def critEv : QueuedEvent :=
  { event := { event_id := "crit", event_type := "coaching_alert"
               video_timestamp := 0, system_timestamp := 0, confidence := 1
               source_component := "", requires_ui_update := true }
    priorityClass := EventPriorityClass.critical }

/-- C8: at a full queue a newly submitted low-priority event is dropped and counted,
while a critical event is enqueued by displacing the oldest (frontmost) low-priority
entry; filling the queue to its default capacity 1000 with low-priority events and
submitting one critical event leaves the critical event present, the length at
capacity, and exactly 999 of the 1000 low-priority entries. -/
theorem queue_backpressure_policy :
    (∀ (cap : ℕ) (q : List QueuedEvent) (d : ℕ) (e : QueuedEvent),
      q.length = cap → isLowPriority e = true →
      SubmitSyncEvent cap q d e = (q, d + 1)) ∧
    (∀ (cap : ℕ) (q : List QueuedEvent) (d : ℕ) (e : QueuedEvent),
      q.length = cap → 0 < cap → isLowPriority e = false →
      (∀ x ∈ q, isLowPriority x = true) →
      SubmitSyncEvent cap q d e = (q.tail ++ [e], d)) ∧
    SubmitSyncEvent 1000 (List.replicate 1000 lowEv) 0 critEv =
      (List.replicate 999 lowEv ++ [critEv], 0) ∧
    critEv ∈ List.replicate 999 lowEv ++ [critEv] ∧
    (List.replicate 999 lowEv ++ [critEv]).length = 1000 ∧
    (List.replicate 999 lowEv ++ [critEv]).count lowEv = 999 := by
  have hdrop : ∀ (cap : ℕ) (q : List QueuedEvent) (d : ℕ) (e : QueuedEvent),
      q.length = cap → isLowPriority e = true →
      SubmitSyncEvent cap q d e = (q, d + 1) := by
    intro cap q d e hlen hlow
    unfold SubmitSyncEvent
    rw [if_neg (by omega), if_pos hlow]
  have hdisp : ∀ (cap : ℕ) (q : List QueuedEvent) (d : ℕ) (e : QueuedEvent),
      q.length = cap → 0 < cap → isLowPriority e = false →
      (∀ x ∈ q, isLowPriority x = true) →
      SubmitSyncEvent cap q d e = (q.tail ++ [e], d) := by
    intro cap q d e hlen hpos hcrit hall
    cases q with
    | nil => simp at hlen; omega
    | cons hd tl =>
      have hhd : isLowPriority hd = true := hall hd (List.mem_cons_self _ _)
      unfold SubmitSyncEvent
      rw [if_neg (by omega), if_neg (by simp [hcrit])]
      rw [if_pos (by simp [List.any_cons, hhd])]
      rw [List.eraseP_cons_of_pos hhd]
      rfl
  refine ⟨hdrop, hdisp, ?_, ?_, ?_, ?_⟩
  · have h := hdisp 1000 (List.replicate 1000 lowEv) 0 critEv
      (by rw [List.length_replicate]) (by omega) (by decide)
      (by intro x hx; rw [List.eq_of_mem_replicate hx]; rfl)
    rw [h]
    rfl
  · exact List.mem_append_right _ (List.mem_cons_self _ _)
  · rw [List.length_append, List.length_replicate]
    rfl
  · rw [List.count_append, List.count_replicate]
    rw [if_pos (by decide : (lowEv == lowEv) = true)]
    have h2 : List.count lowEv [critEv] = 0 := by decide
    rw [h2]

/-- C8 witness: the displacement rule applied to a concrete full queue of two
low-priority events. -/
theorem queue_backpressure_policy_witness :
    SubmitSyncEvent 2 [lowEv, lowEv] 0 critEv = ([lowEv] ++ [critEv], 0) :=
  queue_backpressure_policy.2.1 2 [lowEv, lowEv] 0 critEv
    (by decide) (by decide) (by decide) (by decide)

end olive
